import Mathlib

/-!
Shallow embedding of the EVM message-call and contract-creation dispatcher of
`vendor/github.com/ethereum/go-ethereum/core/vm/environment.go` (package `vm`):
the methods `EVM.Call`, `EVM.CallCode`, `EVM.DelegateCall` and `EVM.Create`.

The state database is modelled as a total map from addresses to optional
accounts; since Lean values are immutable, a snapshot is simply the state value
itself and reverting to a snapshot is returning that value.  The opcode
interpreter (`interpreter.Run`), an external collaborator of the dispatcher, is
a parameter: a function from the environment, the state and the call frame to
an interpreter result (output bytes, optional fault, post-state, gas left on
the frame).  Gas amounts and addresses are natural numbers (`*big.Int` values
in the source are non-negative throughout the dispatcher).
-/

/-- An account address (`common.Address`). -/
abbrev Address := Nat

/-- The part of an account the dispatcher reads and writes: balance, nonce and
code (`StateDB` account operations). -/
structure Account where
  balance : Nat
  nonce : Nat
  code : List Nat
deriving Repr, DecidableEq

/-- The fresh account produced by `StateDB.CreateAccount`. -/
def Account.empty : Account := ⟨0, 0, []⟩

/-- The state database: a total map from addresses to optional accounts.
Snapshot/revert is value copying. -/
structure StateDB where
  accounts : Address → Option Account

/-- `StateDB.Exist`: whether an account exists at the address. -/
def StateDB.Exist (s : StateDB) (a : Address) : Bool := (s.accounts a).isSome

/-- The account object at an address, or the empty account when absent
(geth's get-or-new behaviour for reads of missing accounts). -/
def StateDB.getObj (s : StateDB) (a : Address) : Account :=
  (s.accounts a).getD Account.empty

/-- Replace (or create) the account stored at an address. -/
def StateDB.setObj (s : StateDB) (a : Address) (acct : Account) : StateDB :=
  ⟨fun x => if x = a then some acct else s.accounts x⟩

/-- `StateDB.GetBalance`. -/
def StateDB.GetBalance (s : StateDB) (a : Address) : Nat := (s.getObj a).balance

/-- `StateDB.SetBalance`. -/
def StateDB.SetBalance (s : StateDB) (a : Address) (v : Nat) : StateDB :=
  s.setObj a { s.getObj a with balance := v }

/-- `StateDB.GetNonce`. -/
def StateDB.GetNonce (s : StateDB) (a : Address) : Nat := (s.getObj a).nonce

/-- `StateDB.SetNonce`. -/
def StateDB.SetNonce (s : StateDB) (a : Address) (n : Nat) : StateDB :=
  s.setObj a { s.getObj a with nonce := n }

/-- `StateDB.GetCode`. -/
def StateDB.GetCode (s : StateDB) (a : Address) : List Nat := (s.getObj a).code

/-- `StateDB.SetCode`. -/
def StateDB.SetCode (s : StateDB) (a : Address) (c : List Nat) : StateDB :=
  s.setObj a { s.getObj a with code := c }

/-- `StateDB.CreateAccount`: installs a fresh account at the address. -/
def StateDB.CreateAccount (s : StateDB) (a : Address) : StateDB :=
  s.setObj a Account.empty

/-- Modelled from the spec: `crypto.Keccak256Hash` is not under `src/`
(cryptographic primitives are out of scope); the dispatcher only stores code
hashes in call frames, so any fixed executable function serves.  Modelled as a
left fold of the injective Cantor-style pairing over the byte list. -/
def keccak256Hash (l : List Nat) : Nat := l.foldl Nat.pair 0

/-- `StateDB.GetCodeHash`: the hash of the stored code. -/
def StateDB.GetCodeHash (s : StateDB) (a : Address) : Nat :=
  keccak256Hash (s.GetCode a)

/-- Modelled from the spec: `crypto.CreateAddress` is not under `src/`.  The
spec requires a deterministic, fork-independent derivation of the new contract
address from the creator's address and the pre-increment nonce, with different
nonces for the same creator giving different addresses; modelled as the
injective pairing of the two. -/
def CreateAddress (a : Address) (nonce : Nat) : Address := Nat.pair a nonce

/-- The error taxonomy of the dispatcher.  `ErrDepth` and
`ErrInsufficientBalance` are the named sentinel errors of package `vm`;
`ErrInsufficientFunds` is the distinct formatted error value `CallCode` builds
with `fmt.Errorf` ("insufficient funds to transfer value. Req …, has …");
`ErrCodeStoreOutOfGas` is the code-deployment-charge failure; `ExecFault`
stands for any opaque fault produced inside the interpreter. -/
inductive VMErr where
  | ErrDepth
  | ErrInsufficientBalance
  | ErrInsufficientFunds (req avail : Nat)
  | ErrCodeStoreOutOfGas
  | ExecFault (id : Nat)
deriving Repr, DecidableEq

/-- `params.CallCreateDepth`: the maximum call/create nesting depth. -/
def CallCreateDepth : Nat := 1024

/-- `params.MaxCodeSize`: the maximum byte size of deployed contract code. -/
def MaxCodeSize : Nat := 24576

/-- `params.CreateDataGas`: gas charged per byte of deployed contract code. -/
def CreateDataGas : Nat := 200

/-- Modelled from the spec: the precompiled-contract presence check
(`PrecompiledContracts[addr] == nil` in `contracts.go`, not under `src/`); only
address presence matters to the dispatcher.  The recognized precompiled
addresses of this era are 1 through 4. -/
def PrecompiledContracts (a : Address) : Bool :=
  a == 1 || a == 2 || a == 3 || a == 4

/-- The `Context` fields the dispatcher reads: the transfer-permission
predicate, the transfer-effect function and the block number (the remaining
fields — origin, gas price, coinbase, gas limit, time, difficulty — are only
passed through to the interpreter and are not modelled). -/
structure Context where
  CanTransfer : StateDB → Address → Nat → Bool
  Transfer : StateDB → Address → Address → Nat → StateDB
  BlockNumber : Nat

/-- The chain-rules oracle (`params.ChainConfig`): the two fork predicates the
dispatcher consults, each keyed by block number. -/
structure ChainConfig where
  IsEIP158 : Nat → Bool
  IsHomestead : Nat → Bool

/-- `vm.Config`: the only field the dispatcher reads is `NoRecursion`. -/
structure Config where
  NoRecursion : Bool

/-- The `EVM` environment record (its `StateDB` is threaded explicitly through
the operations; `depth` is the current call-stack depth at entry). -/
structure EVM where
  context : Context
  chainConfig : ChainConfig
  vmConfig : Config
  depth : Nat

/-- The caller reference (`ContractRef`): the dispatcher reads its address
(`caller.Address()`) and, in `DelegateCall`, its value (`caller.Value()`);
returned gas is reported in the result record instead of mutating the ref. -/
structure ContractRef where
  addr : Address
  value : Nat
deriving Repr, DecidableEq

/-- Modelled from the spec: the call frame (`vm.Contract`, in `contract.go`,
not under `src/`): caller identity, target account, value, remaining gas, the
delegate flag, and the bound code with its address and hash. -/
structure Contract where
  CallerAddress : Address
  self : Address
  value : Nat
  Gas : Nat
  DelegateCall : Bool
  CodeAddr : Option Address
  CodeHash : Nat
  Code : List Nat
deriving Repr, DecidableEq

/-- Modelled from the spec: `NewContract(caller, object, value, gas)` builds a
fresh non-delegate frame with no code bound yet. -/
def NewContract (caller : ContractRef) (toAddr : Address) (value gas : Nat) :
    Contract :=
  { CallerAddress := caller.addr, self := toAddr, value := value, Gas := gas,
    DelegateCall := false, CodeAddr := none, CodeHash := 0, Code := [] }

/-- Modelled from the spec: `Contract.AsDelegate` marks the frame as executing
as a delegate of its caller. -/
def Contract.AsDelegate (c : Contract) : Contract := { c with DelegateCall := true }

/-- Modelled from the spec: `Contract.SetCallCode` binds code, its address and
its hash to the frame. -/
def Contract.SetCallCode (c : Contract) (a : Address) (h : Nat)
    (code : List Nat) : Contract :=
  { c with CodeAddr := some a, CodeHash := h, Code := code }

/-- Modelled from the spec: `Contract.UseGas` deducts the amount from the
frame's remaining gas when affordable, reporting whether it succeeded. -/
def Contract.UseGas (c : Contract) (amount : Nat) : Bool × Contract :=
  if amount ≤ c.Gas then (true, { c with Gas := c.Gas - amount })
  else (false, c)

/-- The interpreter's result: output bytes, optional fault, the post-run state
and the gas left on the frame after the run. -/
structure InterpResult where
  ret : List Nat
  err : Option VMErr
  state : StateDB
  gasLeft : Nat

/-- The external interpreter (`interpreter.Run`) as an oracle: it receives the
environment, the state the dispatcher prepared, the call frame and the input
bytes. -/
abbrev Interp := EVM → StateDB → Contract → List Nat → InterpResult

/-- The result of `Call`/`CallCode`/`DelegateCall`: returned output, error,
final state, and the total gas handed back to the caller (`caller.ReturnGas`
on the precondition exits, the frame's remaining gas released by
`contract.Finalise` otherwise). -/
structure CallResult where
  ret : List Nat
  err : Option VMErr
  state : StateDB
  gasReturned : Nat

/-- The result of `Create`: output, the derived contract address, error, final
state and the gas handed back to the caller. -/
structure CreateResult where
  ret : List Nat
  contractAddr : Address
  err : Option VMErr
  state : StateDB
  gasReturned : Nat

/-- The shared tail of `Call`/`CallCode`/`DelegateCall` after `interpreter.Run`
(`contract1` is the frame carrying the post-run remaining gas): on a fault the
frame's whole remaining gas is consumed (`contract.UseGas(contract.Gas)`) and
the state reverts to the snapshot; either way the deferred
`contract.Finalise()` hands the frame's remaining gas back to the caller and
the interpreter's output and error are returned unchanged. -/
def finishRun (snapshot : StateDB) (contract1 : Contract) (r : InterpResult) :
    CallResult :=
  if r.err ≠ none then
    { ret := r.ret, err := r.err, state := snapshot,
      gasReturned := ((contract1.UseGas contract1.Gas).2).Gas }
  else
    { ret := r.ret, err := r.err, state := r.state,
      gasReturned := contract1.Gas }

/-- The state `Call` runs the interpreter against: the target account is
created when absent, then the value transfer is applied
(`evm.Transfer(evm.StateDB, caller.Address(), to.Address(), value)`). -/
def callRunState (evm : EVM) (st : StateDB) (caller : ContractRef)
    (addr : Address) (value : Nat) : StateDB :=
  let st1 := if st.Exist addr then st else st.CreateAccount addr
  evm.context.Transfer st1 caller.addr addr value

/-- The frame `Call` builds: target is the callee, code fetched from the
callee's address. -/
def callFrame (st2 : StateDB) (caller : ContractRef) (addr : Address)
    (value gas : Nat) : Contract :=
  (NewContract caller addr value gas).SetCallCode addr (st2.GetCodeHash addr)
    (st2.GetCode addr)

/-- `EVM.Call` (environment.go lines 106–159). -/
def EVM.Call (evm : EVM) (interp : Interp) (st : StateDB)
    (caller : ContractRef) (addr : Address) (input : List Nat)
    (gas value : Nat) : CallResult :=
  if evm.vmConfig.NoRecursion = true ∧ 0 < evm.depth then
    { ret := [], err := none, state := st, gasReturned := gas }
  else if CallCreateDepth < evm.depth then
    { ret := [], err := some VMErr.ErrDepth, state := st, gasReturned := gas }
  else if evm.context.CanTransfer st caller.addr value = false then
    { ret := [], err := some VMErr.ErrInsufficientBalance, state := st,
      gasReturned := gas }
  else
    let snapshot := st
    if st.Exist addr = false ∧ PrecompiledContracts addr = false ∧
        evm.chainConfig.IsEIP158 evm.context.BlockNumber = true ∧ value = 0 then
      { ret := [], err := none, state := st, gasReturned := gas }
    else
      let st2 := callRunState evm st caller addr value
      let contract := callFrame st2 caller addr value gas
      let r := interp evm st2 contract input
      finishRun snapshot { contract with Gas := r.gasLeft } r

/-- The frame `CallCode` builds: target is the caller's own account, code
fetched from the callee's address. -/
def callCodeFrame (st : StateDB) (caller : ContractRef) (addr : Address)
    (value gas : Nat) : Contract :=
  (NewContract caller caller.addr value gas).SetCallCode addr
    (st.GetCodeHash addr) (st.GetCode addr)

/-- `EVM.CallCode` (environment.go lines 166–205).  Note that in this source
the balance check failure carries the formatted requested-versus-available
error, and no value transfer is performed. -/
def EVM.CallCode (evm : EVM) (interp : Interp) (st : StateDB)
    (caller : ContractRef) (addr : Address) (input : List Nat)
    (gas value : Nat) : CallResult :=
  if evm.vmConfig.NoRecursion = true ∧ 0 < evm.depth then
    { ret := [], err := none, state := st, gasReturned := gas }
  else if CallCreateDepth < evm.depth then
    { ret := [], err := some VMErr.ErrDepth, state := st, gasReturned := gas }
  else if evm.context.CanTransfer st caller.addr value = false then
    { ret := [],
      err := some (VMErr.ErrInsufficientFunds value (st.GetBalance caller.addr)),
      state := st, gasReturned := gas }
  else
    let snapshot := st
    let contract := callCodeFrame st caller addr value gas
    let r := interp evm st contract input
    finishRun snapshot { contract with Gas := r.gasLeft } r

/-- The frame `DelegateCall` builds: target is the caller's own account, the
caller's inherited value, marked as delegate, code fetched from the callee's
address. -/
def delegateFrame (st : StateDB) (caller : ContractRef) (addr : Address)
    (gas : Nat) : Contract :=
  ((NewContract caller caller.addr caller.value gas).AsDelegate).SetCallCode
    addr (st.GetCodeHash addr) (st.GetCode addr)

/-- `EVM.DelegateCall` (environment.go lines 212–244): no balance check, no
value parameter, no transfer. -/
def EVM.DelegateCall (evm : EVM) (interp : Interp) (st : StateDB)
    (caller : ContractRef) (addr : Address) (input : List Nat)
    (gas : Nat) : CallResult :=
  if evm.vmConfig.NoRecursion = true ∧ 0 < evm.depth then
    { ret := [], err := none, state := st, gasReturned := gas }
  else if CallCreateDepth < evm.depth then
    { ret := [], err := some VMErr.ErrDepth, state := st, gasReturned := gas }
  else
    let snapshot := st
    let contract := delegateFrame st caller addr gas
    let r := interp evm st contract input
    finishRun snapshot { contract with Gas := r.gasLeft } r

/-- The state `Create` runs the init code against (`st1` is the state after
the caller's nonce increment): the new account is created, its nonce set to 1
under EIP-158, and the value transferred to it. -/
def createRunState (evm : EVM) (st1 : StateDB) (caller : ContractRef)
    (contractAddr : Address) (value : Nat) : StateDB :=
  let st2 := st1.CreateAccount contractAddr
  let st3 := if evm.chainConfig.IsEIP158 evm.context.BlockNumber = true then
    st2.SetNonce contractAddr 1 else st2
  evm.context.Transfer st3 caller.addr contractAddr value

/-- The frame `Create` builds: target is the new contract address, the frame's
code is the init code itself. -/
def createFrame (caller : ContractRef) (contractAddr : Address)
    (code : List Nat) (value gas : Nat) : Contract :=
  (NewContract caller contractAddr value gas).SetCallCode contractAddr
    (keccak256Hash code) code

/-- The tail of `Create` after `interpreter.Run` (environment.go lines
294–339): check the maximum code size, charge the per-byte deployment gas and
install the code on success, then apply the fork-dependent revert policy
(`maxCodeSizeExceeded || (err != nil && (IsHomestead || err !=
ErrCodeStoreOutOfGas))`), and clear the output when an error remains. -/
def createFinish (evm : EVM) (snapshot : StateDB) (contractAddr : Address)
    (contract1 : Contract) (r : InterpResult) : CreateResult :=
  let step : StateDB × Contract × Option VMErr :=
    if r.err = none ∧ r.ret.length ≤ MaxCodeSize then
      let u := contract1.UseGas (r.ret.length * CreateDataGas)
      if u.1 = true then (r.state.SetCode contractAddr r.ret, u.2, none)
      else (r.state, u.2, some VMErr.ErrCodeStoreOutOfGas)
    else (r.state, contract1, r.err)
  if MaxCodeSize < r.ret.length ∨
      (step.2.2 ≠ none ∧
        (evm.chainConfig.IsHomestead evm.context.BlockNumber = true ∨
          step.2.2 ≠ some VMErr.ErrCodeStoreOutOfGas)) then
    { ret := [], contractAddr := contractAddr,
      err := if MaxCodeSize < r.ret.length ∧ step.2.2 = none then
        some VMErr.ErrCodeStoreOutOfGas else step.2.2,
      state := snapshot,
      gasReturned := ((step.2.1.UseGas step.2.1.Gas).2).Gas }
  else
    { ret := if step.2.2 ≠ none then [] else r.ret,
      contractAddr := contractAddr, err := step.2.2, state := step.1,
      gasReturned := step.2.1.Gas }

/-- `EVM.Create` (environment.go lines 247–340).  The caller's nonce is read
and incremented before the snapshot is taken; the contract address is derived
from the caller's address and the pre-increment nonce. -/
def EVM.Create (evm : EVM) (interp : Interp) (st : StateDB)
    (caller : ContractRef) (code : List Nat) (gas value : Nat) : CreateResult :=
  if evm.vmConfig.NoRecursion = true ∧ 0 < evm.depth then
    { ret := [], contractAddr := 0, err := none, state := st,
      gasReturned := gas }
  else if CallCreateDepth < evm.depth then
    { ret := [], contractAddr := 0, err := some VMErr.ErrDepth, state := st,
      gasReturned := gas }
  else if evm.context.CanTransfer st caller.addr value = false then
    { ret := [], contractAddr := 0, err := some VMErr.ErrInsufficientBalance,
      state := st, gasReturned := gas }
  else
    let nonce := st.GetNonce caller.addr
    let st1 := st.SetNonce caller.addr (nonce + 1)
    let snapshot := st1
    let contractAddr := CreateAddress caller.addr nonce
    let st4 := createRunState evm st1 caller contractAddr value
    let contract := createFrame caller contractAddr code value gas
    let r := interp evm st4 contract []
    createFinish evm snapshot contractAddr { contract with Gas := r.gasLeft } r

/-! ### Concrete fixtures used by witnesses and counterexamples -/

/-- The canonical transfer-permission predicate: the value must not exceed the
balance of the source account. -/
def exCanTransfer : StateDB → Address → Nat → Bool :=
  fun st a v => decide (v ≤ st.GetBalance a)

/-- The canonical transfer effect: subtract from the source balance, add to
the destination balance. -/
def exTransfer : StateDB → Address → Address → Nat → StateDB :=
  fun st src dst v =>
    let st1 := st.SetBalance src (st.GetBalance src - v)
    st1.SetBalance dst (st1.GetBalance dst + v)

/-- An execution context at block 100 with the canonical transfer pair. -/
def exContext : Context := ⟨exCanTransfer, exTransfer, 100⟩

/-- A chain configuration whose two forks both activate at block 50. -/
def exChainConfig : ChainConfig :=
  ⟨fun n => decide (50 ≤ n), fun n => decide (50 ≤ n)⟩

/-- A post-fork environment at depth 0 without the no-recursion mode. -/
def exEvm : EVM := ⟨exContext, exChainConfig, ⟨false⟩, 0⟩

/-- The same environment at depth 1025 (one beyond the maximum). -/
def exEvmDeep : EVM := ⟨exContext, exChainConfig, ⟨false⟩, 1025⟩

/-- An environment with the no-recursion mode set, at depth 1025. -/
def exEvmNoRec : EVM := ⟨exContext, exChainConfig, ⟨true⟩, 1025⟩

/-- A pre-fork environment (neither fork active) at depth 0. -/
def exEvmFrontier : EVM := ⟨exContext, ⟨fun _ => false, fun _ => false⟩, ⟨false⟩, 0⟩

/-- A two-account state: a caller at address 5 (balance 1000, nonce 7) and a
callee at address 9 (balance 0, nonce 0, code `[1, 2]`). -/
def exSt : StateDB :=
  ⟨fun a => if a = 5 then some ⟨1000, 7, []⟩
    else if a = 9 then some ⟨0, 0, [1, 2]⟩ else none⟩

/-- An interpreter stub that succeeds with fixed output and gas left. -/
def interpOk (out : List Nat) (gasLeft : Nat) : Interp :=
  fun _ st _ _ => ⟨out, none, st, gasLeft⟩

/-- An interpreter stub that faults with a fixed error. -/
def interpFault (e : VMErr) : Interp := fun _ st _ _ => ⟨[], some e, st, 0⟩

/-- An interpreter stub that succeeds with output one byte longer than the
maximum code size. -/
def interpBig : Interp :=
  fun _ st _ _ => ⟨List.replicate (MaxCodeSize + 1) 1, none, st, 0⟩

/-! ### Basic lemmas about the state model -/

theorem StateDB.getObj_setObj_self (s : StateDB) (a : Address) (acct : Account) :
    (s.setObj a acct).getObj a = acct := by
  simp [StateDB.setObj, StateDB.getObj]

theorem StateDB.GetNonce_SetNonce_self (s : StateDB) (a : Address) (n : Nat) :
    (s.SetNonce a n).GetNonce a = n := by
  simp [StateDB.SetNonce, StateDB.GetNonce, StateDB.getObj_setObj_self]

/-! ### Lemmas about the shared run tail -/

theorem finishRun_fault (snapshot : StateDB) (c : Contract) (r : InterpResult)
    (e : VMErr) (h : r.err = some e) :
    finishRun snapshot c r =
      { ret := r.ret, err := some e, state := snapshot, gasReturned := 0 } := by
  simp [finishRun, h, Contract.UseGas]

theorem finishRun_ok (snapshot : StateDB) (c : Contract) (r : InterpResult)
    (h : r.err = none) :
    finishRun snapshot c r =
      { ret := r.ret, err := none, state := r.state, gasReturned := c.Gas } := by
  simp [finishRun, h]

/-! ### Reduction lemmas: reaching the interpreter run -/

theorem Call_reaches_run (evm : EVM) (interp : Interp) (st : StateDB)
    (caller : ContractRef) (addr : Address) (input : List Nat) (gas value : Nat)
    (h1 : ¬(evm.vmConfig.NoRecursion = true ∧ 0 < evm.depth))
    (h2 : evm.depth ≤ CallCreateDepth)
    (h3 : evm.context.CanTransfer st caller.addr value = true)
    (h4 : ¬(st.Exist addr = false ∧ PrecompiledContracts addr = false ∧
      evm.chainConfig.IsEIP158 evm.context.BlockNumber = true ∧ value = 0)) :
    evm.Call interp st caller addr input gas value =
      finishRun st
        { callFrame (callRunState evm st caller addr value) caller addr value gas with
          Gas := (interp evm (callRunState evm st caller addr value)
            (callFrame (callRunState evm st caller addr value) caller addr value gas)
            input).gasLeft }
        (interp evm (callRunState evm st caller addr value)
          (callFrame (callRunState evm st caller addr value) caller addr value gas)
          input) := by
  rw [EVM.Call, if_neg h1, if_neg (by omega : ¬ CallCreateDepth < evm.depth),
    if_neg (by simp [h3]), if_neg h4]

theorem CallCode_reaches_run (evm : EVM) (interp : Interp) (st : StateDB)
    (caller : ContractRef) (addr : Address) (input : List Nat) (gas value : Nat)
    (h1 : ¬(evm.vmConfig.NoRecursion = true ∧ 0 < evm.depth))
    (h2 : evm.depth ≤ CallCreateDepth)
    (h3 : evm.context.CanTransfer st caller.addr value = true) :
    evm.CallCode interp st caller addr input gas value =
      finishRun st
        { callCodeFrame st caller addr value gas with
          Gas := (interp evm st (callCodeFrame st caller addr value gas)
            input).gasLeft }
        (interp evm st (callCodeFrame st caller addr value gas) input) := by
  rw [EVM.CallCode, if_neg h1, if_neg (by omega : ¬ CallCreateDepth < evm.depth),
    if_neg (by simp [h3])]

theorem DelegateCall_reaches_run (evm : EVM) (interp : Interp) (st : StateDB)
    (caller : ContractRef) (addr : Address) (input : List Nat) (gas : Nat)
    (h1 : ¬(evm.vmConfig.NoRecursion = true ∧ 0 < evm.depth))
    (h2 : evm.depth ≤ CallCreateDepth) :
    evm.DelegateCall interp st caller addr input gas =
      finishRun st
        { delegateFrame st caller addr gas with
          Gas := (interp evm st (delegateFrame st caller addr gas)
            input).gasLeft }
        (interp evm st (delegateFrame st caller addr gas) input) := by
  rw [EVM.DelegateCall, if_neg h1, if_neg (by omega : ¬ CallCreateDepth < evm.depth)]

theorem Create_reaches_run (evm : EVM) (interp : Interp) (st : StateDB)
    (caller : ContractRef) (code : List Nat) (gas value : Nat)
    (h1 : ¬(evm.vmConfig.NoRecursion = true ∧ 0 < evm.depth))
    (h2 : evm.depth ≤ CallCreateDepth)
    (h3 : evm.context.CanTransfer st caller.addr value = true) :
    evm.Create interp st caller code gas value =
      createFinish evm (st.SetNonce caller.addr (st.GetNonce caller.addr + 1))
        (CreateAddress caller.addr (st.GetNonce caller.addr))
        { createFrame caller (CreateAddress caller.addr (st.GetNonce caller.addr))
            code value gas with
          Gas := (interp evm
            (createRunState evm (st.SetNonce caller.addr (st.GetNonce caller.addr + 1))
              caller (CreateAddress caller.addr (st.GetNonce caller.addr)) value)
            (createFrame caller (CreateAddress caller.addr (st.GetNonce caller.addr))
              code value gas) []).gasLeft }
        (interp evm
          (createRunState evm (st.SetNonce caller.addr (st.GetNonce caller.addr + 1))
            caller (CreateAddress caller.addr (st.GetNonce caller.addr)) value)
          (createFrame caller (CreateAddress caller.addr (st.GetNonce caller.addr))
            code value gas) []) := by
  rw [EVM.Create, if_neg h1, if_neg (by omega : ¬ CallCreateDepth < evm.depth),
    if_neg (by simp [h3])]

/-! ### Lemmas about the creation tail -/

theorem createFinish_fullRevert (evm : EVM) (snapshot : StateDB)
    (ca : Address) (c : Contract) (r : InterpResult) (e : VMErr)
    (h : r.err = some e)
    (hf : evm.chainConfig.IsHomestead evm.context.BlockNumber = true ∨
      e ≠ VMErr.ErrCodeStoreOutOfGas) :
    createFinish evm snapshot ca c r =
      { ret := [], contractAddr := ca, err := some e, state := snapshot,
        gasReturned := 0 } := by
  have hne : ¬(r.err = none ∧ r.ret.length ≤ MaxCodeSize) := by simp [h]
  rw [createFinish, if_neg hne]
  rw [if_pos (by
    right
    refine ⟨by simp [h], ?_⟩
    rcases hf with hf | hf
    · exact Or.inl hf
    · exact Or.inr (by simp [h, hf]))]
  simp [h, Contract.UseGas]

theorem createFinish_oversize (evm : EVM) (snapshot : StateDB)
    (ca : Address) (c : Contract) (r : InterpResult)
    (h : MaxCodeSize < r.ret.length) :
    createFinish evm snapshot ca c r =
      { ret := [], contractAddr := ca,
        err := if r.err = none then some VMErr.ErrCodeStoreOutOfGas else r.err,
        state := snapshot, gasReturned := 0 } := by
  have hne : ¬(r.err = none ∧ r.ret.length ≤ MaxCodeSize) := by
    rintro ⟨-, hle⟩; omega
  rw [createFinish, if_neg hne, if_pos (Or.inl h)]
  rcases he : r.err with _ | e
  · simp [he, h, Contract.UseGas]
  · simp [he, h, Contract.UseGas]

theorem createFinish_success (evm : EVM) (snapshot : StateDB)
    (ca : Address) (c : Contract) (r : InterpResult)
    (h : r.err = none) (hlen : r.ret.length ≤ MaxCodeSize)
    (hgas : r.ret.length * CreateDataGas ≤ c.Gas) :
    createFinish evm snapshot ca c r =
      { ret := r.ret, contractAddr := ca, err := none,
        state := r.state.SetCode ca r.ret,
        gasReturned := c.Gas - r.ret.length * CreateDataGas } := by
  have hnlt : ¬ MaxCodeSize < r.ret.length := Nat.not_lt.mpr hlen
  simp [createFinish, h, hlen, hgas, hnlt, Contract.UseGas]

theorem createFinish_codeStoreOutOfGas_tolerated (evm : EVM) (snapshot : StateDB)
    (ca : Address) (c : Contract) (r : InterpResult)
    (h : r.err = none) (hlen : r.ret.length ≤ MaxCodeSize)
    (hgas : ¬ r.ret.length * CreateDataGas ≤ c.Gas)
    (hf : evm.chainConfig.IsHomestead evm.context.BlockNumber = false) :
    createFinish evm snapshot ca c r =
      { ret := [], contractAddr := ca, err := some VMErr.ErrCodeStoreOutOfGas,
        state := r.state, gasReturned := c.Gas } := by
  have hnlt : ¬ MaxCodeSize < r.ret.length := Nat.not_lt.mpr hlen
  simp [createFinish, h, hlen, hgas, hnlt, hf, Contract.UseGas]

theorem createFinish_codeStoreOutOfGas_homestead (evm : EVM) (snapshot : StateDB)
    (ca : Address) (c : Contract) (r : InterpResult)
    (h : r.err = none) (hlen : r.ret.length ≤ MaxCodeSize)
    (hgas : ¬ r.ret.length * CreateDataGas ≤ c.Gas)
    (hf : evm.chainConfig.IsHomestead evm.context.BlockNumber = true) :
    createFinish evm snapshot ca c r =
      { ret := [], contractAddr := ca, err := some VMErr.ErrCodeStoreOutOfGas,
        state := snapshot, gasReturned := 0 } := by
  have hnlt : ¬ MaxCodeSize < r.ret.length := Nat.not_lt.mpr hlen
  simp [createFinish, h, hlen, hgas, hnlt, hf, Contract.UseGas]

theorem finishRun_err (snapshot : StateDB) (c : Contract) (r : InterpResult) :
    (finishRun snapshot c r).err = r.err := by
  rw [finishRun]; split <;> rfl

theorem createFinish_contractAddr (evm : EVM) (snapshot : StateDB)
    (ca : Address) (c : Contract) (r : InterpResult) :
    (createFinish evm snapshot ca c r).contractAddr = ca := by
  rw [createFinish]; split_ifs <;> rfl

/-! ### Claims -/

/-- Claim C1 counterexample: a `Create` that fails with a full-revert condition
(interpreter fault, error returned, whole remaining gas consumed) leaves the
caller's nonce at 8, not at its pre-call value 7: the nonce increment is stored
before the snapshot is taken and is therefore not part of what gets
reverted. -/
theorem C1_counterexample :
    (exEvm.Create (interpFault (VMErr.ExecFault 0)) exSt ⟨5, 0⟩ [] 100 0).err
        = some (VMErr.ExecFault 0)
    ∧ (exEvm.Create (interpFault (VMErr.ExecFault 0)) exSt ⟨5, 0⟩ [] 100 0).gasReturned
        = 0
    ∧ exSt.GetNonce 5 = 7
    ∧ (exEvm.Create (interpFault (VMErr.ExecFault 0)) exSt ⟨5, 0⟩ [] 100 0).state.GetNonce 5
        = 8 :=
  ⟨by decide, by decide, by decide, by decide⟩

/-- Claim C1 (amended): in `Create` the caller's nonce is read, incremented and
stored immediately, but this happens before the snapshot is taken; on a
full-revert failure the state reverts exactly to the post-increment snapshot,
so the caller's nonce remains at its incremented value instead of being
restored to its pre-call value. -/
theorem C1_nonce_increment_survives_revert
    (evm : EVM) (interp : Interp) (st : StateDB) (caller : ContractRef)
    (code : List Nat) (gas value : Nat) (e : VMErr)
    (h1 : ¬(evm.vmConfig.NoRecursion = true ∧ 0 < evm.depth))
    (h2 : evm.depth ≤ CallCreateDepth)
    (h3 : evm.context.CanTransfer st caller.addr value = true)
    (hr : (interp evm
        (createRunState evm (st.SetNonce caller.addr (st.GetNonce caller.addr + 1))
          caller (CreateAddress caller.addr (st.GetNonce caller.addr)) value)
        (createFrame caller (CreateAddress caller.addr (st.GetNonce caller.addr))
          code value gas) []).err = some e)
    (he : e ≠ VMErr.ErrCodeStoreOutOfGas) :
    (evm.Create interp st caller code gas value).state
        = st.SetNonce caller.addr (st.GetNonce caller.addr + 1)
    ∧ (evm.Create interp st caller code gas value).state.GetNonce caller.addr
        = st.GetNonce caller.addr + 1
    ∧ (evm.Create interp st caller code gas value).err = some e
    ∧ (evm.Create interp st caller code gas value).gasReturned = 0 := by
  rw [Create_reaches_run evm interp st caller code gas value h1 h2 h3,
    createFinish_fullRevert _ _ _ _ _ e hr (Or.inr he)]
  exact ⟨rfl, StateDB.GetNonce_SetNonce_self _ _ _, rfl, rfl⟩

theorem C1_nonce_increment_survives_revert_witness :
    (exEvm.Create (interpFault (VMErr.ExecFault 0)) exSt ⟨5, 0⟩ [] 100 0).state
        = exSt.SetNonce 5 (exSt.GetNonce 5 + 1)
    ∧ (exEvm.Create (interpFault (VMErr.ExecFault 0)) exSt ⟨5, 0⟩ [] 100 0).state.GetNonce 5
        = exSt.GetNonce 5 + 1
    ∧ (exEvm.Create (interpFault (VMErr.ExecFault 0)) exSt ⟨5, 0⟩ [] 100 0).err
        = some (VMErr.ExecFault 0)
    ∧ (exEvm.Create (interpFault (VMErr.ExecFault 0)) exSt ⟨5, 0⟩ [] 100 0).gasReturned
        = 0 :=
  C1_nonce_increment_survives_revert exEvm (interpFault (VMErr.ExecFault 0)) exSt
    ⟨5, 0⟩ [] 100 0 (VMErr.ExecFault 0) (by decide) (by decide) (by decide) rfl
    (by decide)

/-- Claim C2 counterexample: a fully successful `Create` (no error, code within
the maximum, deployment gas paid, code installed on the new account) returns
the installed code `[7, 7, 7]` as its output, not an empty or nil output. -/
theorem C2_counterexample :
    (exEvm.Create (interpOk [7, 7, 7] 1000) exSt ⟨5, 0⟩ [] 100 0).err = none
    ∧ (exEvm.Create (interpOk [7, 7, 7] 1000) exSt ⟨5, 0⟩ [] 100 0).state.GetCode
        (CreateAddress 5 7) = [7, 7, 7]
    ∧ (exEvm.Create (interpOk [7, 7, 7] 1000) exSt ⟨5, 0⟩ [] 100 0).ret = [7, 7, 7]
    ∧ [7, 7, 7] ≠ ([] : List Nat) :=
  ⟨by decide, by decide, by decide, by decide⟩

/-- Claim C2 (amended): on a fully successful `Create` the returned output is
not cleared — it is the interpreter's returned code itself, the code that was
just installed on the new account; the output is cleared to nil only when
`Create` returns with an error. -/
theorem C2_success_returns_installed_code
    (evm : EVM) (interp : Interp) (st : StateDB) (caller : ContractRef)
    (code : List Nat) (gas value : Nat) (r : InterpResult)
    (h1 : ¬(evm.vmConfig.NoRecursion = true ∧ 0 < evm.depth))
    (h2 : evm.depth ≤ CallCreateDepth)
    (h3 : evm.context.CanTransfer st caller.addr value = true)
    (hr : interp evm
        (createRunState evm (st.SetNonce caller.addr (st.GetNonce caller.addr + 1))
          caller (CreateAddress caller.addr (st.GetNonce caller.addr)) value)
        (createFrame caller (CreateAddress caller.addr (st.GetNonce caller.addr))
          code value gas) [] = r)
    (hok : r.err = none) (hlen : r.ret.length ≤ MaxCodeSize)
    (hgas : r.ret.length * CreateDataGas ≤ r.gasLeft) :
    evm.Create interp st caller code gas value =
      { ret := r.ret,
        contractAddr := CreateAddress caller.addr (st.GetNonce caller.addr),
        err := none,
        state := r.state.SetCode
          (CreateAddress caller.addr (st.GetNonce caller.addr)) r.ret,
        gasReturned := r.gasLeft - r.ret.length * CreateDataGas } := by
  rw [Create_reaches_run evm interp st caller code gas value h1 h2 h3, hr,
    createFinish_success _ _ _ _ _ hok hlen hgas]

theorem C2_success_returns_installed_code_witness :
    (exEvm.Create (interpOk [7] 1000) exSt ⟨5, 0⟩ [] 100 0).ret = [7]
    ∧ (exEvm.Create (interpOk [7] 1000) exSt ⟨5, 0⟩ [] 100 0).err = none := by
  have h := C2_success_returns_installed_code exEvm (interpOk [7] 1000) exSt
    ⟨5, 0⟩ [] 100 0 _ (by decide) (by decide) (by decide) rfl (by decide)
    (by decide) (by decide)
  rw [h]
  exact ⟨rfl, rfl⟩

/-- Claim C3: for every invocation of `Call`, `CallCode` or `DelegateCall`
that reaches the interpreter — for `Call` that means every invocation past the
no-recursion, depth and balance checks that does not take the EIP-158
empty-account short-circuit, including calls that auto-create an absent target
account (nonzero value or precompiled target) — a fault from the interpreter
makes the frame's entire remaining gas be consumed (nothing is handed back to
the caller), the state revert exactly to the snapshot taken at the start of
the invocation (the entry state, undoing any account creation and transfer),
and the interpreter's error be returned unchanged (together with its output);
on interpreter success nothing is reverted and the interpreter's output, state
and leftover gas are passed through as-is. -/
theorem C3_interpreter_fault_reverts_and_consumes_gas
    (evm : EVM) (interp : Interp) (st : StateDB) (caller : ContractRef)
    (addr : Address) (input : List Nat) (gas value : Nat)
    (rc rcc rd : InterpResult)
    (h1 : ¬(evm.vmConfig.NoRecursion = true ∧ 0 < evm.depth))
    (h2 : evm.depth ≤ CallCreateDepth)
    (h3 : evm.context.CanTransfer st caller.addr value = true)
    (h4 : ¬(st.Exist addr = false ∧ PrecompiledContracts addr = false ∧
      evm.chainConfig.IsEIP158 evm.context.BlockNumber = true ∧ value = 0))
    (hrc : interp evm (callRunState evm st caller addr value)
      (callFrame (callRunState evm st caller addr value) caller addr value gas)
      input = rc)
    (hrcc : interp evm st (callCodeFrame st caller addr value gas) input = rcc)
    (hrd : interp evm st (delegateFrame st caller addr gas) input = rd) :
    (∀ e, rc.err = some e →
      evm.Call interp st caller addr input gas value =
        { ret := rc.ret, err := some e, state := st, gasReturned := 0 })
    ∧ (rc.err = none →
      evm.Call interp st caller addr input gas value =
        { ret := rc.ret, err := none, state := rc.state,
          gasReturned := rc.gasLeft })
    ∧ (∀ e, rcc.err = some e →
      evm.CallCode interp st caller addr input gas value =
        { ret := rcc.ret, err := some e, state := st, gasReturned := 0 })
    ∧ (rcc.err = none →
      evm.CallCode interp st caller addr input gas value =
        { ret := rcc.ret, err := none, state := rcc.state,
          gasReturned := rcc.gasLeft })
    ∧ (∀ e, rd.err = some e →
      evm.DelegateCall interp st caller addr input gas =
        { ret := rd.ret, err := some e, state := st, gasReturned := 0 })
    ∧ (rd.err = none →
      evm.DelegateCall interp st caller addr input gas =
        { ret := rd.ret, err := none, state := rd.state,
          gasReturned := rd.gasLeft }) := by
  refine ⟨?_, ?_, ?_, ?_, ?_, ?_⟩
  · intro e he
    rw [Call_reaches_run evm interp st caller addr input gas value h1 h2 h3 h4,
      hrc, finishRun_fault _ _ _ e he]
  · intro he
    rw [Call_reaches_run evm interp st caller addr input gas value h1 h2 h3 h4,
      hrc, finishRun_ok _ _ _ he]
  · intro e he
    rw [CallCode_reaches_run evm interp st caller addr input gas value h1 h2 h3,
      hrcc, finishRun_fault _ _ _ e he]
  · intro he
    rw [CallCode_reaches_run evm interp st caller addr input gas value h1 h2 h3,
      hrcc, finishRun_ok _ _ _ he]
  · intro e he
    rw [DelegateCall_reaches_run evm interp st caller addr input gas h1 h2,
      hrd, finishRun_fault _ _ _ e he]
  · intro he
    rw [DelegateCall_reaches_run evm interp st caller addr input gas h1 h2,
      hrd, finishRun_ok _ _ _ he]

theorem C3_interpreter_fault_reverts_and_consumes_gas_witness :
    exSt.Exist 77 = false
    ∧ (exEvm.Call (interpFault (VMErr.ExecFault 3)) exSt ⟨5, 0⟩ 77 [] 10 100).state
        = exSt
    ∧ (exEvm.Call (interpFault (VMErr.ExecFault 3)) exSt ⟨5, 0⟩ 77 [] 10 100).gasReturned
        = 0
    ∧ (exEvm.Call (interpFault (VMErr.ExecFault 3)) exSt ⟨5, 0⟩ 77 [] 10 100).err
        = some (VMErr.ExecFault 3) := by
  have h := (C3_interpreter_fault_reverts_and_consumes_gas exEvm
    (interpFault (VMErr.ExecFault 3)) exSt ⟨5, 0⟩ 77 [] 10 100 _ _ _
    (by decide) (by decide) (by decide) (by decide) rfl rfl rfl).1
    (VMErr.ExecFault 3) rfl
  rw [h]
  exact ⟨by decide, rfl, rfl, rfl⟩

theorem createFinish_err_ne (evm : EVM) (snapshot : StateDB) (ca : Address)
    (c : Contract) (r : InterpResult) (e : VMErr)
    (hne : e ≠ VMErr.ErrCodeStoreOutOfGas) (h : r.err ≠ some e) :
    (createFinish evm snapshot ca c r).err ≠ some e := by
  have hne2 : ¬ VMErr.ErrCodeStoreOutOfGas = e := fun hh => hne hh.symm
  rw [createFinish]
  by_cases hu : (c.UseGas (r.ret.length * CreateDataGas)).1 = true <;>
    split_ifs <;> simp_all

/-- Claim C4 counterexample: with the no-recursion mode configured and depth
1025 (exceeding the maximum 1024), `Call` and `Create` do not fail with
`ErrDepth` — the no-recursion short-circuit runs first and returns success
with no output, contradicting the claim that every invocation whose depth
exceeds the maximum fails with `DepthExceeded`. -/
theorem C4_counterexample :
    CallCreateDepth < exEvmNoRec.depth
    ∧ (exEvmNoRec.Call (interpOk [] 0) exSt ⟨5, 0⟩ 9 [] 10 0).err = none
    ∧ (exEvmNoRec.Call (interpOk [] 0) exSt ⟨5, 0⟩ 9 [] 10 0).err ≠ some VMErr.ErrDepth
    ∧ (exEvmNoRec.Create (interpOk [] 0) exSt ⟨5, 0⟩ [] 10 0).err ≠ some VMErr.ErrDepth :=
  ⟨by decide, by decide, by decide, by decide⟩

/-- Claim C4 (amended): provided the no-recursion short-circuit does not apply,
every invocation of `Call`, `CallCode`, `DelegateCall` or `Create` whose depth
exceeds the configured maximum fails with `ErrDepth`, returns all unused gas to
the caller and leaves the state completely unmutated; and at depth exactly the
maximum the depth check passes: no operation reports `ErrDepth` unless the
interpreter itself produced it. -/
theorem C4_depth_check
    (interp : Interp) (evm : EVM) (st : StateDB) (caller : ContractRef)
    (addr : Address) (input code : List Nat) (gas value : Nat)
    (h1 : ¬(evm.vmConfig.NoRecursion = true ∧ 0 < evm.depth)) :
    (CallCreateDepth < evm.depth →
      evm.Call interp st caller addr input gas value =
        { ret := [], err := some VMErr.ErrDepth, state := st, gasReturned := gas }
      ∧ evm.CallCode interp st caller addr input gas value =
        { ret := [], err := some VMErr.ErrDepth, state := st, gasReturned := gas }
      ∧ evm.DelegateCall interp st caller addr input gas =
        { ret := [], err := some VMErr.ErrDepth, state := st, gasReturned := gas }
      ∧ evm.Create interp st caller code gas value =
        { ret := [], contractAddr := 0, err := some VMErr.ErrDepth, state := st,
          gasReturned := gas })
    ∧ (evm.depth = CallCreateDepth →
      (∀ ev s c i, (interp ev s c i).err ≠ some VMErr.ErrDepth) →
      (evm.Call interp st caller addr input gas value).err ≠ some VMErr.ErrDepth
      ∧ (evm.CallCode interp st caller addr input gas value).err ≠ some VMErr.ErrDepth
      ∧ (evm.DelegateCall interp st caller addr input gas).err ≠ some VMErr.ErrDepth
      ∧ (evm.Create interp st caller code gas value).err ≠ some VMErr.ErrDepth) := by
  constructor
  · intro hd
    refine ⟨?_, ?_, ?_, ?_⟩
    · rw [EVM.Call, if_neg h1, if_pos hd]
    · rw [EVM.CallCode, if_neg h1, if_pos hd]
    · rw [EVM.DelegateCall, if_neg h1, if_pos hd]
    · rw [EVM.Create, if_neg h1, if_pos hd]
  · intro hd hni
    refine ⟨?_, ?_, ?_, ?_⟩
    · rw [EVM.Call, if_neg h1, if_neg (by omega)]
      split_ifs with hc hn
      · simp
      · simp
      · simp only [finishRun_err]
        exact hni _ _ _ _
    · rw [EVM.CallCode, if_neg h1, if_neg (by omega)]
      split_ifs with hc
      · simp
      · simp only [finishRun_err]
        exact hni _ _ _ _
    · rw [EVM.DelegateCall, if_neg h1, if_neg (by omega)]
      simp only [finishRun_err]
      exact hni _ _ _ _
    · rw [EVM.Create, if_neg h1, if_neg (by omega)]
      split_ifs with hc
      · simp
      · exact createFinish_err_ne _ _ _ _ _ _ (by decide) (hni _ _ _ _)

theorem C4_depth_check_witness :
    (exEvmDeep.Call (interpOk [] 0) exSt ⟨5, 0⟩ 9 [] 10 0) =
      { ret := [], err := some VMErr.ErrDepth, state := exSt, gasReturned := 10 }
    ∧ (exEvmDeep.Create (interpOk [] 0) exSt ⟨5, 0⟩ [] 10 0) =
      { ret := [], contractAddr := 0, err := some VMErr.ErrDepth, state := exSt,
        gasReturned := 10 } := by
  have h := (C4_depth_check (interpOk [] 0) exEvmDeep exSt ⟨5, 0⟩ 9 [] [] 10 0
    (by decide)).1 (by decide)
  exact ⟨h.1, h.2.2.2⟩

/-- Claim C5: whenever the init code returns code longer than the maximum code
size, `Create` fully reverts regardless of the fork configuration (the chain
configuration is arbitrary here): the whole remaining gas is consumed, the
state reverts to the snapshot (so no code is installed and the new account is
gone), the output is nil, and the deterministically derived contract address is
still returned together with a non-nil error. -/
theorem C5_oversized_code_always_reverts
    (evm : EVM) (interp : Interp) (st : StateDB) (caller : ContractRef)
    (code : List Nat) (gas value : Nat) (r : InterpResult)
    (h1 : ¬(evm.vmConfig.NoRecursion = true ∧ 0 < evm.depth))
    (h2 : evm.depth ≤ CallCreateDepth)
    (h3 : evm.context.CanTransfer st caller.addr value = true)
    (hr : interp evm
        (createRunState evm (st.SetNonce caller.addr (st.GetNonce caller.addr + 1))
          caller (CreateAddress caller.addr (st.GetNonce caller.addr)) value)
        (createFrame caller (CreateAddress caller.addr (st.GetNonce caller.addr))
          code value gas) [] = r)
    (hbig : MaxCodeSize < r.ret.length) :
    evm.Create interp st caller code gas value =
      { ret := [],
        contractAddr := CreateAddress caller.addr (st.GetNonce caller.addr),
        err := if r.err = none then some VMErr.ErrCodeStoreOutOfGas else r.err,
        state := st.SetNonce caller.addr (st.GetNonce caller.addr + 1),
        gasReturned := 0 }
    ∧ (evm.Create interp st caller code gas value).err ≠ none := by
  have hmain : evm.Create interp st caller code gas value =
      { ret := [],
        contractAddr := CreateAddress caller.addr (st.GetNonce caller.addr),
        err := if r.err = none then some VMErr.ErrCodeStoreOutOfGas else r.err,
        state := st.SetNonce caller.addr (st.GetNonce caller.addr + 1),
        gasReturned := 0 } := by
    rw [Create_reaches_run evm interp st caller code gas value h1 h2 h3, hr,
      createFinish_oversize _ _ _ _ _ hbig]
  refine ⟨hmain, ?_⟩
  rw [hmain]
  rcases he : r.err with _ | e <;> simp [he]

theorem C5_oversized_code_always_reverts_witness :
    exEvmFrontier.Create interpBig exSt ⟨5, 0⟩ [] 100 0 =
      { ret := [],
        contractAddr := CreateAddress 5 (exSt.GetNonce 5),
        err := if (interpBig exEvmFrontier
          (createRunState exEvmFrontier (exSt.SetNonce 5 (exSt.GetNonce 5 + 1))
            ⟨5, 0⟩ (CreateAddress 5 (exSt.GetNonce 5)) 0)
          (createFrame ⟨5, 0⟩ (CreateAddress 5 (exSt.GetNonce 5)) [] 0 100)
          []).err = none then some VMErr.ErrCodeStoreOutOfGas
          else (interpBig exEvmFrontier
            (createRunState exEvmFrontier (exSt.SetNonce 5 (exSt.GetNonce 5 + 1))
              ⟨5, 0⟩ (CreateAddress 5 (exSt.GetNonce 5)) 0)
            (createFrame ⟨5, 0⟩ (CreateAddress 5 (exSt.GetNonce 5)) [] 0 100)
            []).err,
        state := exSt.SetNonce 5 (exSt.GetNonce 5 + 1),
        gasReturned := 0 }
    ∧ (exEvmFrontier.Create interpBig exSt ⟨5, 0⟩ [] 100 0).err ≠ none :=
  C5_oversized_code_always_reverts exEvmFrontier interpBig exSt ⟨5, 0⟩ [] 100 0 _
    (by decide) (by decide) (by decide) rfl
    (by simp [interpBig])

/-- Claim C6: when code installation fails only because the per-byte deployment
charge cannot be paid, the outcome is fork-dependent: before Homestead the
failure is tolerated — `Create` returns `ErrCodeStoreOutOfGas` but the state is
the interpreter's post-run state (the created account persists, no code is
installed by `Create`, nothing is reverted) and the frame's leftover gas is
released; from Homestead on, the same failure causes a full revert to the
snapshot with the whole remaining gas consumed. -/
theorem C6_code_store_out_of_gas_fork_policy
    (evm : EVM) (interp : Interp) (st : StateDB) (caller : ContractRef)
    (code : List Nat) (gas value : Nat) (r : InterpResult)
    (h1 : ¬(evm.vmConfig.NoRecursion = true ∧ 0 < evm.depth))
    (h2 : evm.depth ≤ CallCreateDepth)
    (h3 : evm.context.CanTransfer st caller.addr value = true)
    (hr : interp evm
        (createRunState evm (st.SetNonce caller.addr (st.GetNonce caller.addr + 1))
          caller (CreateAddress caller.addr (st.GetNonce caller.addr)) value)
        (createFrame caller (CreateAddress caller.addr (st.GetNonce caller.addr))
          code value gas) [] = r)
    (hok : r.err = none) (hlen : r.ret.length ≤ MaxCodeSize)
    (hnogas : ¬ r.ret.length * CreateDataGas ≤ r.gasLeft) :
    (evm.chainConfig.IsHomestead evm.context.BlockNumber = false →
      evm.Create interp st caller code gas value =
        { ret := [],
          contractAddr := CreateAddress caller.addr (st.GetNonce caller.addr),
          err := some VMErr.ErrCodeStoreOutOfGas, state := r.state,
          gasReturned := r.gasLeft })
    ∧ (evm.chainConfig.IsHomestead evm.context.BlockNumber = true →
      evm.Create interp st caller code gas value =
        { ret := [],
          contractAddr := CreateAddress caller.addr (st.GetNonce caller.addr),
          err := some VMErr.ErrCodeStoreOutOfGas,
          state := st.SetNonce caller.addr (st.GetNonce caller.addr + 1),
          gasReturned := 0 }) := by
  constructor
  · intro hf
    rw [Create_reaches_run evm interp st caller code gas value h1 h2 h3, hr,
      createFinish_codeStoreOutOfGas_tolerated _ _ _ _ _ hok hlen hnogas hf]
  · intro hf
    rw [Create_reaches_run evm interp st caller code gas value h1 h2 h3, hr,
      createFinish_codeStoreOutOfGas_homestead _ _ _ _ _ hok hlen hnogas hf]

theorem C6_code_store_out_of_gas_fork_policy_witness :
    (exEvmFrontier.Create (interpOk [1, 2, 3] 100) exSt ⟨5, 0⟩ [] 100 0).err
        = some VMErr.ErrCodeStoreOutOfGas
    ∧ (exEvmFrontier.Create (interpOk [1, 2, 3] 100) exSt ⟨5, 0⟩ [] 100 0).gasReturned
        = 100
    ∧ (exEvm.Create (interpOk [1, 2, 3] 100) exSt ⟨5, 0⟩ [] 100 0).err
        = some VMErr.ErrCodeStoreOutOfGas
    ∧ (exEvm.Create (interpOk [1, 2, 3] 100) exSt ⟨5, 0⟩ [] 100 0).gasReturned
        = 0 := by
  have ha := (C6_code_store_out_of_gas_fork_policy exEvmFrontier
    (interpOk [1, 2, 3] 100) exSt ⟨5, 0⟩ [] 100 0 _ (by decide) (by decide)
    (by decide) rfl (by decide) (by decide) (by decide)).1 (by decide)
  have hb := (C6_code_store_out_of_gas_fork_policy exEvm
    (interpOk [1, 2, 3] 100) exSt ⟨5, 0⟩ [] 100 0 _ (by decide) (by decide)
    (by decide) rfl (by decide) (by decide) (by decide)).2 (by decide)
  rw [ha, hb]
  exact ⟨rfl, rfl, rfl, rfl⟩

/-- Claim C7: for a `Call` (that passes the earlier checks) whose target
address has no account: when the address is not a recognized precompiled
address, the EIP-158 empty-account rule is active and the transferred value is
zero, `Call` short-circuits with success, no output, full gas returned and the
state untouched (no account is created); in every other case with the target
account absent, the account is created before the value transfer — the state
handed to the transfer effect (and then to the interpreter) is the entry state
with the account created. -/
theorem C7_empty_account_rule
    (evm : EVM) (interp : Interp) (st : StateDB) (caller : ContractRef)
    (addr : Address) (input : List Nat) (gas value : Nat)
    (h1 : ¬(evm.vmConfig.NoRecursion = true ∧ 0 < evm.depth))
    (h2 : evm.depth ≤ CallCreateDepth)
    (h3 : evm.context.CanTransfer st caller.addr value = true)
    (h5 : st.Exist addr = false) :
    (PrecompiledContracts addr = false →
      evm.chainConfig.IsEIP158 evm.context.BlockNumber = true → value = 0 →
      evm.Call interp st caller addr input gas value =
        { ret := [], err := none, state := st, gasReturned := gas })
    ∧ (¬(PrecompiledContracts addr = false ∧
        evm.chainConfig.IsEIP158 evm.context.BlockNumber = true ∧ value = 0) →
      callRunState evm st caller addr value =
        evm.context.Transfer (st.CreateAccount addr) caller.addr addr value
      ∧ evm.Call interp st caller addr input gas value =
        finishRun st
          { callFrame (callRunState evm st caller addr value) caller addr value gas with
            Gas := (interp evm (callRunState evm st caller addr value)
              (callFrame (callRunState evm st caller addr value) caller addr value gas)
              input).gasLeft }
          (interp evm (callRunState evm st caller addr value)
            (callFrame (callRunState evm st caller addr value) caller addr value gas)
            input)) := by
  constructor
  · intro hp he hv
    rw [EVM.Call, if_neg h1, if_neg (by omega), if_neg (by simp [h3]),
      if_pos ⟨h5, hp, he, hv⟩]
  · intro hno
    constructor
    · rw [callRunState]
      simp [h5]
    · rw [EVM.Call, if_neg h1, if_neg (by omega), if_neg (by simp [h3]),
        if_neg (by rintro ⟨-, hrest⟩; exact hno hrest)]

theorem C7_empty_account_rule_witness :
    (exEvm.Call (interpOk [] 0) exSt ⟨5, 0⟩ 77 [] 10 0) =
      { ret := [], err := none, state := exSt, gasReturned := 10 }
    ∧ exSt.Exist 77 = false :=
  ⟨(C7_empty_account_rule exEvm (interpOk [] 0) exSt ⟨5, 0⟩ 77 [] 10 0
      (by decide) (by decide) (by decide) (by decide)).1
      (by decide) (by decide) rfl,
    by decide⟩

/-- Claim C8: a `Call` (past the no-recursion and depth checks) whose transfer
is rejected by the transfer-permission predicate fails with
`ErrInsufficientBalance`, returns all unused gas to the caller and leaves the
state exactly as it was: no existence check, no account creation, no balance
mutation (the returned state is the entry state itself). -/
theorem C8_insufficient_balance_no_mutation
    (evm : EVM) (interp : Interp) (st : StateDB) (caller : ContractRef)
    (addr : Address) (input : List Nat) (gas value : Nat)
    (h1 : ¬(evm.vmConfig.NoRecursion = true ∧ 0 < evm.depth))
    (h2 : evm.depth ≤ CallCreateDepth)
    (h3 : evm.context.CanTransfer st caller.addr value = false) :
    evm.Call interp st caller addr input gas value =
      { ret := [], err := some VMErr.ErrInsufficientBalance, state := st,
        gasReturned := gas } := by
  rw [EVM.Call, if_neg h1, if_neg (by omega), if_pos h3]

theorem C8_insufficient_balance_no_mutation_witness :
    exEvm.Call (interpOk [] 0) exSt ⟨5, 0⟩ 77 [] 10 2000 =
      { ret := [], err := some VMErr.ErrInsufficientBalance, state := exSt,
        gasReturned := 10 } :=
  C8_insufficient_balance_no_mutation exEvm (interpOk [] 0) exSt ⟨5, 0⟩ 77 []
    10 2000 (by decide) (by decide) (by decide)

/-- Claim C9: the contract address computed by `Create` is
`CreateAddress(callerAddress, nonceBeforeIncrement)`, a deterministic function
of the caller's address and the pre-increment nonce only; and for a fixed
creator, different nonce values always derive different addresses. -/
theorem C9_create_address_deterministic
    (evm : EVM) (interp : Interp) (st : StateDB) (caller : ContractRef)
    (code : List Nat) (gas value : Nat)
    (h1 : ¬(evm.vmConfig.NoRecursion = true ∧ 0 < evm.depth))
    (h2 : evm.depth ≤ CallCreateDepth)
    (h3 : evm.context.CanTransfer st caller.addr value = true) :
    (evm.Create interp st caller code gas value).contractAddr =
      CreateAddress caller.addr (st.GetNonce caller.addr)
    ∧ (∀ a n n2, CreateAddress a n = CreateAddress a n2 → n = n2) := by
  constructor
  · rw [Create_reaches_run evm interp st caller code gas value h1 h2 h3,
      createFinish_contractAddr]
  · intro a n n2 h
    have h2 := congrArg Nat.unpair h
    simpa [CreateAddress, Nat.unpair_pair] using h2

theorem C9_create_address_deterministic_witness :
    (exEvm.Create (interpOk [] 0) exSt ⟨5, 0⟩ [] 10 0).contractAddr =
      CreateAddress 5 (exSt.GetNonce 5)
    ∧ (∀ a n n2, CreateAddress a n = CreateAddress a n2 → n = n2) :=
  C9_create_address_deterministic exEvm (interpOk [] 0) exSt ⟨5, 0⟩ [] 10 0
    (by decide) (by decide) (by decide)

theorem finishRun_ret (snapshot : StateDB) (c : Contract) (r : InterpResult) :
    (finishRun snapshot c r).ret = r.ret := by
  rw [finishRun]; split <;> rfl

/-- Claim C10: `DelegateCall` performs no transfer-permission check and no
value transfer: the interpreter, when reached, receives the entry state
unchanged, and the result is either the no-recursion no-op, the `ErrDepth`
failure, or the interpreter's outcome — in particular `DelegateCall` never
fails with `ErrInsufficientBalance` (nor with the formatted insufficient-funds
error) unless the interpreter itself produced that error; and the frame it
builds targets the caller's own account, carries the caller's inherited value
and is marked as delegate. -/
theorem C10_delegatecall_no_value_transfer
    (evm : EVM) (interp : Interp) (st : StateDB) (caller : ContractRef)
    (addr : Address) (input : List Nat) (gas : Nat) (r : InterpResult)
    (hr : interp evm st (delegateFrame st caller addr gas) input = r) :
    ((delegateFrame st caller addr gas).self = caller.addr
      ∧ (delegateFrame st caller addr gas).value = caller.value
      ∧ (delegateFrame st caller addr gas).DelegateCall = true)
    ∧ (evm.DelegateCall interp st caller addr input gas =
          { ret := [], err := none, state := st, gasReturned := gas }
      ∨ evm.DelegateCall interp st caller addr input gas =
          { ret := [], err := some VMErr.ErrDepth, state := st,
            gasReturned := gas }
      ∨ ((evm.DelegateCall interp st caller addr input gas).ret = r.ret
        ∧ (evm.DelegateCall interp st caller addr input gas).err = r.err
        ∧ (r.err = none → evm.DelegateCall interp st caller addr input gas =
            { ret := r.ret, err := none, state := r.state,
              gasReturned := r.gasLeft })
        ∧ (∀ e, r.err = some e →
            evm.DelegateCall interp st caller addr input gas =
              { ret := r.ret, err := some e, state := st, gasReturned := 0 })))
    ∧ (r.err ≠ some VMErr.ErrInsufficientBalance →
        (evm.DelegateCall interp st caller addr input gas).err
          ≠ some VMErr.ErrInsufficientBalance)
    ∧ (∀ q av, r.err ≠ some (VMErr.ErrInsufficientFunds q av) →
        (evm.DelegateCall interp st caller addr input gas).err
          ≠ some (VMErr.ErrInsufficientFunds q av)) := by
  rcases Classical.em (evm.vmConfig.NoRecursion = true ∧ 0 < evm.depth) with hb1 | hb1
  · have hnoop : evm.DelegateCall interp st caller addr input gas =
        { ret := [], err := none, state := st, gasReturned := gas } := by
      rw [EVM.DelegateCall, if_pos hb1]
    refine ⟨⟨rfl, rfl, rfl⟩, Or.inl hnoop, ?_, ?_⟩
    · intro hne
      rw [hnoop]
      simp
    · intro q av hne
      rw [hnoop]
      simp
  · rcases Classical.em (CallCreateDepth < evm.depth) with hb2 | hb2
    · have hdep : evm.DelegateCall interp st caller addr input gas =
          { ret := [], err := some VMErr.ErrDepth, state := st,
            gasReturned := gas } := by
        rw [EVM.DelegateCall, if_neg hb1, if_pos hb2]
      refine ⟨⟨rfl, rfl, rfl⟩, Or.inr (Or.inl hdep), ?_, ?_⟩
      · intro hne
        rw [hdep]
        simp
      · intro q av hne
        rw [hdep]
        simp
    · have hrun : evm.DelegateCall interp st caller addr input gas =
          finishRun st
            { delegateFrame st caller addr gas with Gas := r.gasLeft } r := by
        rw [DelegateCall_reaches_run evm interp st caller addr input gas hb1
          (by omega), hr]
      refine ⟨⟨rfl, rfl, rfl⟩, Or.inr (Or.inr ⟨?_, ?_, ?_, ?_⟩), ?_, ?_⟩
      · rw [hrun, finishRun_ret]
      · rw [hrun, finishRun_err]
      · intro he
        rw [hrun, finishRun_ok _ _ _ he]
      · intro e he
        rw [hrun, finishRun_fault _ _ _ e he]
      · intro hne
        rw [hrun, finishRun_err]
        exact hne
      · intro q av hne
        rw [hrun, finishRun_err]
        exact hne

theorem C10_delegatecall_no_value_transfer_witness :
    exEvm.DelegateCall (interpFault (VMErr.ExecFault 1)) exSt ⟨5, 50⟩ 9 [] 10 =
      { ret := [], err := some (VMErr.ExecFault 1), state := exSt,
        gasReturned := 0 }
    ∧ (delegateFrame exSt ⟨5, 50⟩ 9 10).self = 5
    ∧ (delegateFrame exSt ⟨5, 50⟩ 9 10).value = 50
    ∧ (delegateFrame exSt ⟨5, 50⟩ 9 10).DelegateCall = true := by
  have h := C10_delegatecall_no_value_transfer exEvm
    (interpFault (VMErr.ExecFault 1)) exSt ⟨5, 50⟩ 9 [] 10
    ⟨[], some (VMErr.ExecFault 1), exSt, 0⟩ rfl
  refine ⟨?_, h.1.1, h.1.2.1, h.1.2.2⟩
  rcases h.2.1 with hno | hdep | hrun
  · exact absurd (congrArg CallResult.err hno) (by decide)
  · exact absurd (congrArg CallResult.err hdep) (by decide)
  · exact hrun.2.2.2 (VMErr.ExecFault 1) rfl
